import Mathlib

/-!
Shallow embedding of the trading-agent decision workflow
(`src/models.py`, `src/workflow.py`).

Python floats are modelled as exact rationals (`Rat`).  External
collaborators (market-data provider, advisor LLM, reviewer LLM, wall
clock) are modelled as oracle inputs gathered in an `Env`; the outcome of
each free-text parse is part of the oracle, since the parser's input is
arbitrary text produced outside the program.  Each workflow step becomes
a pure function; `run_workflow` composes them following the event routing
of `TradingAgentWorkflow` and records the external calls each step makes,
so that "this step never calls the advisor" is a statement about the
returned call trace.
-/

namespace Trading

/-- `market_cycle` literal of `TradingPlan` (models.py line 19). -/
inductive MarketCycle
  | bull_trend
  | bear_trend
  | trading_range
  deriving DecidableEq

/-- `action` literal of `TradingPlan` (models.py line 20). -/
inductive Action
  | BUY
  | SELL
  | HOLD
  deriving DecidableEq

/-- `status` literal of `TradingPlan` (models.py line 23). -/
inductive PlanStatus
  | PENDING
  | ACTIVE
  | FILLED
  | CLOSED
  deriving DecidableEq

/-- `TradingPlan` pydantic model (models.py lines 18-24). -/
structure TradingPlan where
  market_cycle : MarketCycle
  action : Action
  target_price : Rat
  stop_loss : Rat
  status : PlanStatus := .PENDING
  reasoning : String
  deriving DecidableEq

/-- `AgentState` pydantic model (models.py lines 26-34). -/
structure AgentState where
  cash_balance : Rat
  current_position : Rat := 0
  active_plan : Option TradingPlan := none
  last_update_time : String := ""
  deriving DecidableEq

/-- The dict returned by `MarketDataProvider.get_market_snapshot`. -/
structure MarketSummary where
  symbol : String
  timeframe : String
  current_price : Rat
  volume_24h : Rat
  chart_path : String
  timestamp : String
  deriving DecidableEq

/-- Pydantic keyword-argument construction of `TradingPlan`: every field
without a default (`market_cycle`, `action`, `target_price`, `stop_loss`,
`reasoning`) is required, and constructing the model without it raises a
`ValidationError`; `status` defaults to `PENDING`.  `none` stands for an
omitted keyword argument. -/
def mkTradingPlan (market_cycle : Option MarketCycle) (action : Option Action)
    (target_price : Option Rat) (stop_loss : Option Rat)
    (status : Option PlanStatus) (reasoning : Option String) :
    Except String TradingPlan :=
  match market_cycle, action, target_price, stop_loss, reasoning with
  | none, _, _, _, _ =>
      .error "validation error for TradingPlan: market_cycle field required"
  | _, none, _, _, _ =>
      .error "validation error for TradingPlan: action field required"
  | _, _, none, _, _ =>
      .error "validation error for TradingPlan: target_price field required"
  | _, _, _, none, _ =>
      .error "validation error for TradingPlan: stop_loss field required"
  | _, _, _, _, none =>
      .error "validation error for TradingPlan: reasoning field required"
  | some mc, some a, some tp, some sl, some r =>
      .ok { market_cycle := mc, action := a, target_price := tp,
            stop_loss := sl, status := status.getD .PENDING, reasoning := r }

/-- External collaborator calls a step can make, for the call trace. -/
inductive ExtCall
  | getMarketSnapshot
  | advisorChat
  | reviewerChat
  | getCurrentPrice
  deriving DecidableEq

/-- Routing outcome of step 1 (`analyze_market`): either a
`MarketAnalysisEvent` carrying the snapshot or a `TradeSignalEvent`. -/
inductive AnalysisRoute
  | marketAnalysis (summary : MarketSummary)
  | tradeSignal
  deriving DecidableEq

/-- Routing outcome of step 2.5 (`risk_review`): either a
`TradeSignalEvent` or a `StopEvent` with a string result. -/
inductive ReviewRoute
  | tradeSignal
  | stop (result : String)
  deriving DecidableEq

/-- Outcome of `json.loads` on the reviewer text followed by dict access:
either a JSON object with optional `approved` / `reasoning` members, or a
raised exception (invalid JSON, or a non-object on which `.get` fails). -/
inductive ReviewerParse
  | parsed (approved : Option Bool) (reasoning : Option String)
  | parseError (err : String)
  deriving DecidableEq

/-- Default state built by `analyze_market` when none is injected:
`AgentState(cash_balance=10000)` (workflow.py line 54). -/
def default_state : AgentState :=
  { cash_balance := 10000 }

/-- Step 1, `TradingAgentWorkflow.analyze_market` (workflow.py lines
39-68): with an active plan whose status is ACTIVE, return a
`TradeSignalEvent` without touching the market-data provider; otherwise
fetch a market snapshot and return a `MarketAnalysisEvent`. -/
def analyze_market (current_state : AgentState) (snapshot : MarketSummary) :
    AnalysisRoute × List ExtCall :=
  match current_state.active_plan with
  | some plan =>
      if plan.status = .ACTIVE then
        (.tradeSignal, [])
      else
        (.marketAnalysis snapshot, [.getMarketSnapshot])
  | none => (.marketAnalysis snapshot, [.getMarketSnapshot])

/-- Step 2, `TradingAgentWorkflow.formulate_plan` (workflow.py lines
71-121): call the advisor LLM; on parse success forward the proposal, on
parse failure fall back to
`TradingPlan(action="HOLD", target_price=0, stop_loss=0, reasoning=...)`
— a construction that omits the required `market_cycle` field, so the
fallback itself raises inside the `except` block and the step fails. -/
def formulate_plan (advisorParsed : Except String TradingPlan)
    (summary : MarketSummary) :
    Except String (TradingPlan × MarketSummary × List ExtCall) :=
  match advisorParsed with
  | .ok proposal => .ok (proposal, summary, [.advisorChat])
  | .error cause =>
      match mkTradingPlan none (some .HOLD) (some 0) (some 0) none
          (some ("Error: " ++ cause)) with
      | .ok proposal => .ok (proposal, summary, [.advisorChat])
      | .error e => .error e

/-- Step 2.5, `TradingAgentWorkflow.risk_review` (workflow.py lines
124-178).  A HOLD proposal stops the cycle before any reviewer call.
Otherwise the reviewer LLM is consulted; only a response that parses with
a truthy `approved` activates the plan, writes it into the state and
stamps `last_update_time`; a falsy or absent `approved` rejects, and a
parse failure stops the cycle with the error.  The returned state is the
context state after the step. -/
def risk_review (proposal : TradingPlan) (review : ReviewerParse)
    (state : AgentState) (now : String) :
    ReviewRoute × AgentState × List ExtCall :=
  if proposal.action = .HOLD then
    (.stop "Trader decided to HOLD. No action.", state, [])
  else
    match review with
    | .parsed approved reasoning =>
        if approved = some true then
          let activated : TradingPlan := { proposal with status := .ACTIVE }
          (.tradeSignal,
           { state with active_plan := some activated, last_update_time := now },
           [.reviewerChat])
        else
          (.stop ("Plan Rejected: " ++ reasoning.getD "None"), state,
           [.reviewerChat])
    | .parseError e =>
        (.stop ("Risk Review Error: " ++ e), state, [.reviewerChat])

/-- Step 3, `TradingAgentWorkflow.execute_or_monitor` (workflow.py lines
181-224).  Without an ACTIVE plan the state is returned untouched.  For
an ACTIVE BUY plan: with a zero position, a mock full fill converts 99%
of cash into position at the current price; with a non-zero position,
price at or below the stop liquidates and marks the plan "[Stopped Out]",
else price at or above the target liquidates and marks "[Target Hit]",
else nothing changes.  The SELL branch is an explicit no-op (`pass`). -/
def execute_or_monitor (state : AgentState) (current_price : Rat) :
    AgentState :=
  match state.active_plan with
  | none => state
  | some plan =>
      if plan.status ≠ .ACTIVE then state
      else
        match plan.action with
        | .BUY =>
            if state.current_position = 0 then
              let qty : Rat := state.cash_balance * (99 / 100) / current_price
              { state with
                  current_position := qty,
                  cash_balance := state.cash_balance - qty * current_price }
            else if current_price ≤ plan.stop_loss then
              { state with
                  cash_balance :=
                    state.cash_balance + state.current_position * current_price,
                  current_position := 0,
                  active_plan := some { plan with
                    status := .CLOSED,
                    reasoning := plan.reasoning ++ " [Stopped Out]" } }
            else if current_price ≥ plan.target_price then
              { state with
                  cash_balance :=
                    state.cash_balance + state.current_position * current_price,
                  current_position := 0,
                  active_plan := some { plan with
                    status := .CLOSED,
                    reasoning := plan.reasoning ++ " [Target Hit]" } }
            else state
        | .SELL => state
        | .HOLD => state

/-- Oracle environment: everything one invocation obtains from outside —
the snapshot, the outcome of parsing the advisor text, the outcome of
parsing the reviewer text, the monitor-step price, and the clock. -/
structure Env where
  snapshot : MarketSummary
  advisorParsed : Except String TradingPlan
  review : ReviewerParse
  current_price : Rat
  now : String

/-- A `StopEvent` result: either a plain string or the final state. -/
inductive StopResult
  | msg (s : String)
  | finalState (st : AgentState)
  deriving DecidableEq

/-- One full workflow invocation: the event routing of
`TradingAgentWorkflow` driven from `StartEvent` to `StopEvent`, threading
the context state explicitly.  Returns the stop result, the final context
state, and the trace of external calls; `.error` models an uncaught
exception escaping a step. -/
def run_workflow (env : Env) (injected : Option AgentState) :
    Except String (StopResult × AgentState × List ExtCall) :=
  let state0 := injected.getD default_state
  let ar := analyze_market state0 env.snapshot
  match ar.1 with
  | .tradeSignal =>
      let s1 := execute_or_monitor state0 env.current_price
      .ok (.finalState s1, s1, ar.2 ++ [.getCurrentPrice])
  | .marketAnalysis summary =>
      match formulate_plan env.advisorParsed summary with
      | .error e => .error e
      | .ok fp =>
          let rr := risk_review fp.1 env.review state0 env.now
          match rr.1 with
          | .stop m => .ok (.msg m, rr.2.1, ar.2 ++ fp.2.2 ++ rr.2.2)
          | .tradeSignal =>
              let s2 := execute_or_monitor rr.2.1 env.current_price
              .ok (.finalState s2, s2,
                   ar.2 ++ fp.2.2 ++ rr.2.2 ++ [.getCurrentPrice])

/-- The final context state of an invocation, when it did not raise. -/
def runFinalState (env : Env) (injected : Option AgentState) :
    Option AgentState :=
  match run_workflow env injected with
  | .ok r => some r.2.1
  | .error _ => none

/-- A reviewer response that is an explicit rejection (parses with
`approved` false or absent) or is not parseable as a JSON object. -/
def reviewRejectsOrUnparseable : ReviewerParse → Prop
  | .parsed approved _ => approved ≠ some true
  | .parseError _ => True

/-- The plan statuses the workflow is claimed to keep plans in. -/
def okStatus (st : PlanStatus) : Prop :=
  st = .PENDING ∨ st = .ACTIVE ∨ st = .CLOSED

/-- Sample BUY proposal used as concrete input in witnesses; it matches
the scenario of spec section 8 item 7. -/
def samplePlanBuy : TradingPlan :=
  { market_cycle := .bull_trend, action := .BUY, target_price := 36800,
    stop_loss := 36200, reasoning := "Buy the bull trend." }

/-- Sample fresh state used as concrete input in witnesses. -/
def sampleState : AgentState :=
  { cash_balance := 10000 }

/-- Sample market snapshot used as concrete input in witnesses. -/
def sampleSummary : MarketSummary :=
  { symbol := "BTC/USDT", timeframe := "1h", current_price := 36500,
    volume_24h := 2000, chart_path := "data/BTC_USDT_1h.png",
    timestamp := "2024-01-01T00:00:00" }

/-- Sample oracle environment: the advisor proposes `samplePlanBuy`, the
reviewer approves, the monitor-step price is 36500. -/
def sampleEnv : Env :=
  { snapshot := sampleSummary, advisorParsed := .ok samplePlanBuy,
    review := .parsed (some true) (some "Approved."),
    current_price := 36500, now := "2024-01-01T01:00:00" }

/-! ### Helper lemmas about the execute/monitor step -/

/-- Without a plan whose status is ACTIVE, `execute_or_monitor` returns
the state untouched. -/
theorem execute_not_active (state : AgentState) (P : Rat)
    (h : ∀ plan, state.active_plan = some plan → plan.status ≠ .ACTIVE) :
    execute_or_monitor state P = state := by
  cases ha : state.active_plan with
  | none => simp [execute_or_monitor, ha]
  | some plan =>
      have hne := h plan ha
      simp [execute_or_monitor, ha, hne]

/-- Entry branch of `execute_or_monitor`: ACTIVE BUY plan, flat position. -/
theorem execute_entry_eq (state : AgentState) (plan : TradingPlan) (P : Rat)
    (h1 : state.active_plan = some plan) (h2 : plan.status = .ACTIVE)
    (h3 : plan.action = .BUY) (h4 : state.current_position = 0) :
    execute_or_monitor state P =
      { state with
          current_position := state.cash_balance * (99 / 100) / P,
          cash_balance :=
            state.cash_balance - state.cash_balance * (99 / 100) / P * P } := by
  simp [execute_or_monitor, h1, h2, h3, h4]

/-- Stop-loss branch of `execute_or_monitor`: ACTIVE BUY plan, open
position, price at or below the stop. -/
theorem execute_stop_eq (state : AgentState) (plan : TradingPlan) (P : Rat)
    (h1 : state.active_plan = some plan) (h2 : plan.status = .ACTIVE)
    (h3 : plan.action = .BUY) (h4 : state.current_position ≠ 0)
    (h5 : P ≤ plan.stop_loss) :
    execute_or_monitor state P =
      { state with
          cash_balance := state.cash_balance + state.current_position * P,
          current_position := 0,
          active_plan := some { plan with
            status := .CLOSED,
            reasoning := plan.reasoning ++ " [Stopped Out]" } } := by
  simp [execute_or_monitor, h1, h2, h3, h4, h5]

/-- Target branch of `execute_or_monitor`: ACTIVE BUY plan, open
position, price above the stop and at or above the target. -/
theorem execute_target_eq (state : AgentState) (plan : TradingPlan) (P : Rat)
    (h1 : state.active_plan = some plan) (h2 : plan.status = .ACTIVE)
    (h3 : plan.action = .BUY) (h4 : state.current_position ≠ 0)
    (h5 : ¬ P ≤ plan.stop_loss) (h6 : P ≥ plan.target_price) :
    execute_or_monitor state P =
      { state with
          cash_balance := state.cash_balance + state.current_position * P,
          current_position := 0,
          active_plan := some { plan with
            status := .CLOSED,
            reasoning := plan.reasoning ++ " [Target Hit]" } } := by
  simp [execute_or_monitor, h1, h2, h3, h4, h5, h6]

/-- No-op branch of `execute_or_monitor`: ACTIVE BUY plan, open
position, price strictly between stop and target. -/
theorem execute_noop_eq (state : AgentState) (plan : TradingPlan) (P : Rat)
    (h1 : state.active_plan = some plan) (h2 : plan.status = .ACTIVE)
    (h3 : plan.action = .BUY) (h4 : state.current_position ≠ 0)
    (h5 : ¬ P ≤ plan.stop_loss) (h6 : ¬ P ≥ plan.target_price) :
    execute_or_monitor state P = state := by
  simp [execute_or_monitor, h1, h2, h3, h4, h5, h6]

/-- `risk_review` never changes the cash balance of the context state. -/
theorem risk_review_cash (proposal : TradingPlan) (review : ReviewerParse)
    (state : AgentState) (now : String) :
    (risk_review proposal review state now).2.1.cash_balance
      = state.cash_balance := by
  unfold risk_review
  by_cases hp : proposal.action = .HOLD
  · simp [hp]
  · cases review with
    | parsed approved reasoning =>
        by_cases ha : approved = some true <;> simp [hp, ha]
    | parseError e => simp [hp]

/-- `risk_review` never changes the position of the context state. -/
theorem risk_review_position (proposal : TradingPlan) (review : ReviewerParse)
    (state : AgentState) (now : String) :
    (risk_review proposal review state now).2.1.current_position
      = state.current_position := by
  unfold risk_review
  by_cases hp : proposal.action = .HOLD
  · simp [hp]
  · cases review with
    | parsed approved reasoning =>
        by_cases ha : approved = some true <;> simp [hp, ha]
    | parseError e => simp [hp]

/-! ### Claims -/

/-- Claim C1 (code bug): for every advisor response whose text fails to
parse as a `TradingPlan`, the fallback
`TradingPlan(action="HOLD", target_price=0, stop_loss=0, reasoning=...)`
omits the required `market_cycle` field, so the construction inside the
`except` block raises a validation error and the plan-formulation step
fails instead of returning the synthetic HOLD plan the spec promises. -/
theorem formulate_plan_fallback_raises (cause : String)
    (summary : MarketSummary) :
    formulate_plan (.error cause) summary =
      .error "validation error for TradingPlan: market_cycle field required" :=
  rfl

/-- Claim C2: for every reviewer response that is an explicit rejection
(`approved` false or absent) or unparseable, `risk_review` leaves the
context state (including `active_plan`) unchanged and stops the cycle,
so the execute/monitor step is never routed to. -/
theorem risk_review_fail_closed (proposal : TradingPlan)
    (review : ReviewerParse) (state : AgentState) (now : String)
    (h : reviewRejectsOrUnparseable review) :
    (risk_review proposal review state now).2.1 = state ∧
    (∃ m, (risk_review proposal review state now).1 = .stop m) ∧
    (risk_review proposal review state now).1 ≠ .tradeSignal := by
  unfold risk_review
  by_cases hp : proposal.action = .HOLD
  · simp [hp]
  · cases review with
    | parsed approved reasoning =>
        have ha : approved ≠ some true := h
        simp [hp, ha]
    | parseError e => simp [hp]

/-- Witness for C2: a concrete unparseable reviewer response with a
concrete non-HOLD proposal leaves the concrete state unchanged. -/
theorem risk_review_fail_closed_witness :
    reviewRejectsOrUnparseable (.parseError "Expecting value") ∧
    ((risk_review samplePlanBuy (.parseError "Expecting value") sampleState
        "2024-01-01T01:00:00").2.1 = sampleState ∧
      (∃ m, (risk_review samplePlanBuy (.parseError "Expecting value")
        sampleState "2024-01-01T01:00:00").1 = .stop m) ∧
      (risk_review samplePlanBuy (.parseError "Expecting value") sampleState
        "2024-01-01T01:00:00").1 ≠ .tradeSignal) :=
  ⟨trivial,
   risk_review_fail_closed samplePlanBuy (.parseError "Expecting value")
     sampleState "2024-01-01T01:00:00" trivial⟩

/-- Claim C4: every HOLD proposal makes `risk_review` stop the cycle at
once with the descriptive result, with no reviewer call (empty call
trace) and the context state returned exactly as it came in. -/
theorem hold_short_circuit (proposal : TradingPlan) (review : ReviewerParse)
    (state : AgentState) (now : String) (h : proposal.action = .HOLD) :
    risk_review proposal review state now =
      (.stop "Trader decided to HOLD. No action.", state, []) := by
  simp [risk_review, h]

/-- Witness for C4: a concrete HOLD proposal at a concrete state. -/
theorem hold_short_circuit_witness :
    ({ market_cycle := .trading_range, action := .HOLD, target_price := 0,
       stop_loss := 0, reasoning := "Stay flat." } : TradingPlan).action
        = .HOLD ∧
    risk_review
      { market_cycle := .trading_range, action := .HOLD, target_price := 0,
        stop_loss := 0, reasoning := "Stay flat." }
      (.parsed (some true) (some "irrelevant")) sampleState
      "2024-01-01T01:00:00" =
      (.stop "Trader decided to HOLD. No action.", sampleState, []) :=
  ⟨rfl,
   hold_short_circuit
     { market_cycle := .trading_range, action := .HOLD, target_price := 0,
       stop_loss := 0, reasoning := "Stay flat." }
     (.parsed (some true) (some "irrelevant")) sampleState
     "2024-01-01T01:00:00" rfl⟩

/-- Sample plan already activated by a previous cycle. -/
def sampleActivePlan : TradingPlan :=
  { samplePlanBuy with status := .ACTIVE }

/-- Sample state holding an ACTIVE plan and a flat position. -/
def sampleActiveState : AgentState :=
  { cash_balance := 10000, active_plan := some sampleActivePlan }

/-- Sample state holding an ACTIVE plan and an open position. -/
def sampleOpenState : AgentState :=
  { cash_balance := 100, current_position := 1,
    active_plan := some sampleActivePlan }

/-- Claim C3: with an ACTIVE plan in the state, one invocation routes
straight from the analyze step to execute/monitor; its call trace is
exactly the monitor-step price fetch, so neither the snapshot provider
nor the advisor nor the reviewer is ever called. -/
theorem active_plan_skips_analysis (env : Env) (state : AgentState)
    (plan : TradingPlan) (h1 : state.active_plan = some plan)
    (h2 : plan.status = .ACTIVE) :
    run_workflow env (some state) =
      .ok (.finalState (execute_or_monitor state env.current_price),
           execute_or_monitor state env.current_price,
           [.getCurrentPrice]) ∧
    ∀ r fs calls, run_workflow env (some state) = .ok (r, fs, calls) →
      ExtCall.getMarketSnapshot ∉ calls ∧ ExtCall.advisorChat ∉ calls ∧
      ExtCall.reviewerChat ∉ calls := by
  have hrun : run_workflow env (some state) =
      .ok (.finalState (execute_or_monitor state env.current_price),
           execute_or_monitor state env.current_price,
           [.getCurrentPrice]) := by
    simp [run_workflow, analyze_market, h1, h2]
  refine ⟨hrun, ?_⟩
  intro r fs calls hc
  rw [hrun] at hc
  injection hc with h
  have hcalls : calls = [ExtCall.getCurrentPrice] :=
    (congrArg (fun t => t.2.2) h).symm
  subst hcalls
  refine ⟨?_, ?_, ?_⟩ <;> decide

/-- Witness for C3: the sample ACTIVE state routes straight to the
execute/monitor step. -/
theorem active_plan_skips_analysis_witness :
    sampleActiveState.active_plan = some sampleActivePlan ∧
    sampleActivePlan.status = .ACTIVE ∧
    (run_workflow sampleEnv (some sampleActiveState) =
      .ok (.finalState
            (execute_or_monitor sampleActiveState sampleEnv.current_price),
           execute_or_monitor sampleActiveState sampleEnv.current_price,
           [.getCurrentPrice]) ∧
     ∀ r fs calls,
       run_workflow sampleEnv (some sampleActiveState) = .ok (r, fs, calls) →
         ExtCall.getMarketSnapshot ∉ calls ∧ ExtCall.advisorChat ∉ calls ∧
         ExtCall.reviewerChat ∉ calls) :=
  ⟨rfl, rfl,
   active_plan_skips_analysis sampleEnv sampleActiveState sampleActivePlan
     rfl rfl⟩

/-- Claim C5: an ACTIVE BUY plan with a flat position fills in one
transition: the position becomes `0.99 * C / P`, the cash becomes
`C - position * P`, which is exactly `C / 100` in exact arithmetic, and
the plan (still ACTIVE) stays in place. -/
theorem buy_entry_conservation (state : AgentState) (plan : TradingPlan)
    (P : Rat) (h1 : state.active_plan = some plan)
    (h2 : plan.status = .ACTIVE) (h3 : plan.action = .BUY)
    (h4 : state.current_position = 0) (hP : 0 < P) :
    (execute_or_monitor state P).current_position
        = 99 / 100 * state.cash_balance / P ∧
    (execute_or_monitor state P).cash_balance
        = state.cash_balance
          - (execute_or_monitor state P).current_position * P ∧
    (execute_or_monitor state P).cash_balance
        = state.cash_balance * (1 / 100) ∧
    (execute_or_monitor state P).active_plan = some plan ∧
    plan.status = .ACTIVE := by
  have hP0 : P ≠ 0 := ne_of_gt hP
  rw [execute_entry_eq state plan P h1 h2 h3 h4]
  refine ⟨by ring, rfl, ?_, h1, h2⟩
  show state.cash_balance - state.cash_balance * (99 / 100) / P * P
      = state.cash_balance * (1 / 100)
  rw [div_mul_cancel₀ _ hP0]
  ring

/-- Witness for C5: entry fill from the sample ACTIVE state at price
36500. -/
theorem buy_entry_conservation_witness :
    sampleActiveState.active_plan = some sampleActivePlan ∧
    sampleActivePlan.status = .ACTIVE ∧
    sampleActivePlan.action = .BUY ∧
    sampleActiveState.current_position = 0 ∧
    (0 : Rat) < 36500 ∧
    ((execute_or_monitor sampleActiveState 36500).current_position
        = 99 / 100 * sampleActiveState.cash_balance / 36500 ∧
     (execute_or_monitor sampleActiveState 36500).cash_balance
        = sampleActiveState.cash_balance
          - (execute_or_monitor sampleActiveState 36500).current_position
            * 36500 ∧
     (execute_or_monitor sampleActiveState 36500).cash_balance
        = sampleActiveState.cash_balance * (1 / 100) ∧
     (execute_or_monitor sampleActiveState 36500).active_plan
        = some sampleActivePlan ∧
     sampleActivePlan.status = .ACTIVE) :=
  ⟨rfl, rfl, rfl, rfl, by norm_num,
   buy_entry_conservation sampleActiveState sampleActivePlan 36500 rfl rfl
     rfl rfl (by norm_num)⟩

/-- Claim C6: monitoring an ACTIVE BUY plan with an open position: price
at or below the stop liquidates and marks the plan closed with
"[Stopped Out]"; otherwise price at or above the target liquidates and
marks "[Target Hit]"; otherwise nothing changes and the plan stays
ACTIVE. -/
theorem monitor_exit_behavior (state : AgentState) (plan : TradingPlan)
    (P : Rat) (h1 : state.active_plan = some plan)
    (h2 : plan.status = .ACTIVE) (h3 : plan.action = .BUY)
    (h4 : state.current_position ≠ 0) :
    execute_or_monitor state P =
      if P ≤ plan.stop_loss then
        { state with
            cash_balance := state.cash_balance + state.current_position * P,
            current_position := 0,
            active_plan := some { plan with
              status := .CLOSED,
              reasoning := plan.reasoning ++ " [Stopped Out]" } }
      else if P ≥ plan.target_price then
        { state with
            cash_balance := state.cash_balance + state.current_position * P,
            current_position := 0,
            active_plan := some { plan with
              status := .CLOSED,
              reasoning := plan.reasoning ++ " [Target Hit]" } }
      else state := by
  by_cases h5 : P ≤ plan.stop_loss
  · rw [if_pos h5]
    exact execute_stop_eq state plan P h1 h2 h3 h4 h5
  · rw [if_neg h5]
    by_cases h6 : P ≥ plan.target_price
    · rw [if_pos h6]
      exact execute_target_eq state plan P h1 h2 h3 h4 h5 h6
    · rw [if_neg h6]
      exact execute_noop_eq state plan P h1 h2 h3 h4 h5 h6

/-- Witness for C6: the sample open position monitored at price 36150
(at or below the stop 36200). -/
theorem monitor_exit_behavior_witness :
    sampleOpenState.active_plan = some sampleActivePlan ∧
    sampleActivePlan.status = .ACTIVE ∧
    sampleActivePlan.action = .BUY ∧
    sampleOpenState.current_position ≠ 0 ∧
    execute_or_monitor sampleOpenState 36150 =
      (if (36150 : Rat) ≤ sampleActivePlan.stop_loss then
        { sampleOpenState with
            cash_balance := sampleOpenState.cash_balance
              + sampleOpenState.current_position * 36150,
            current_position := 0,
            active_plan := some { sampleActivePlan with
              status := .CLOSED,
              reasoning := sampleActivePlan.reasoning ++ " [Stopped Out]" } }
      else if (36150 : Rat) ≥ sampleActivePlan.target_price then
        { sampleOpenState with
            cash_balance := sampleOpenState.cash_balance
              + sampleOpenState.current_position * 36150,
            current_position := 0,
            active_plan := some { sampleActivePlan with
              status := .CLOSED,
              reasoning := sampleActivePlan.reasoning ++ " [Target Hit]" } }
      else sampleOpenState) :=
  ⟨rfl, rfl, rfl, by norm_num [sampleOpenState],
   monitor_exit_behavior sampleOpenState sampleActivePlan 36150 rfl rfl rfl
     (by norm_num [sampleOpenState])⟩

/-- Claim C9: running execute/monitor twice at the same price from a
state with an ACTIVE plan and an open position changes nothing on the
second run, whether or not the first run liquidated. -/
theorem monitor_idempotent (state : AgentState) (plan : TradingPlan)
    (P : Rat) (h1 : state.active_plan = some plan)
    (h2 : plan.status = .ACTIVE) (h4 : state.current_position ≠ 0) :
    execute_or_monitor (execute_or_monitor state P) P
      = execute_or_monitor state P := by
  cases hact : plan.action with
  | BUY =>
      by_cases h5 : P ≤ plan.stop_loss
      · rw [execute_stop_eq state plan P h1 h2 hact h4 h5]
        apply execute_not_active
        intro p hp
        injection hp with h
        rw [← h]
        simp
      · by_cases h6 : P ≥ plan.target_price
        · rw [execute_target_eq state plan P h1 h2 hact h4 h5 h6]
          apply execute_not_active
          intro p hp
          injection hp with h
          rw [← h]
          simp
        · rw [execute_noop_eq state plan P h1 h2 hact h4 h5 h6]
          exact execute_noop_eq state plan P h1 h2 hact h4 h5 h6
  | SELL =>
      have hno : execute_or_monitor state P = state := by
        simp [execute_or_monitor, h1, h2, hact]
      rw [hno]
      exact hno
  | HOLD =>
      have hno : execute_or_monitor state P = state := by
        simp [execute_or_monitor, h1, h2, hact]
      rw [hno]
      exact hno

/-- Witness for C9: monitoring the sample open position twice at price
36150 changes nothing the second time. -/
theorem monitor_idempotent_witness :
    sampleOpenState.active_plan = some sampleActivePlan ∧
    sampleActivePlan.status = .ACTIVE ∧
    sampleOpenState.current_position ≠ 0 ∧
    execute_or_monitor (execute_or_monitor sampleOpenState 36150) 36150
      = execute_or_monitor sampleOpenState 36150 :=
  ⟨rfl, rfl, by norm_num [sampleOpenState],
   monitor_idempotent sampleOpenState sampleActivePlan 36150 rfl rfl
     (by norm_num [sampleOpenState])⟩

/-- In the approval scenario (fresh 10000-cash state, advisor proposes
the sample BUY plan, reviewer approves, monitor price 36500), one full
invocation activates the plan and then fills at once: the final context
state holds position 99/365 and cash 100. -/
theorem scenario_run_eq (now : String) :
    runFinalState { sampleEnv with now := now } (some sampleState) =
      some { cash_balance := 100, current_position := 99 / 365,
             active_plan := some sampleActivePlan,
             last_update_time := now } := by
  have h1 : risk_review samplePlanBuy (.parsed (some true) (some "Approved."))
      sampleState now =
      (.tradeSignal,
       { sampleState with
           active_plan := some sampleActivePlan,
           last_update_time := now }, [.reviewerChat]) := by
    norm_num [risk_review, samplePlanBuy, sampleState, sampleActivePlan]
    all_goals decide
  have ha : sampleState.active_plan = none := rfl
  unfold runFinalState run_workflow
  simp only [Option.getD, analyze_market, ha, formulate_plan, sampleEnv]
  rw [h1]
  norm_num [execute_or_monitor, sampleState, sampleActivePlan, samplePlanBuy]

/-- Counterexample to claim C7: in exactly the claimed scenario the
invocation's resulting state does not have `current_position` 0 — the
fill already happened inside the same invocation's execute/monitor
step. -/
theorem approval_scenario_cex :
    (runFinalState sampleEnv (some sampleState)).map
        AgentState.current_position = some (99 / 365) ∧
    (99 / 365 : Rat) ≠ 0 := by
  constructor
  · have h : ({ sampleEnv with now := sampleEnv.now } : Env) = sampleEnv := rfl
    rw [← h, scenario_run_eq]
    rfl
  · norm_num

/-- Claim C7 as amended: after the risk-review step itself the plan is
ACTIVE, `last_update_time` is stamped and the position is still 0; but
the same invocation then routes to execute/monitor, which fills
immediately, so the invocation's final state has position 99/365 (not 0)
and cash 100. -/
theorem approval_scenario_amended (now : String) (hnow : now ≠ "") :
    (risk_review samplePlanBuy (.parsed (some true) (some "Approved."))
        sampleState now).2.1.current_position = 0 ∧
    (risk_review samplePlanBuy (.parsed (some true) (some "Approved."))
        sampleState now).2.1.active_plan = some sampleActivePlan ∧
    sampleActivePlan.status = .ACTIVE ∧
    (risk_review samplePlanBuy (.parsed (some true) (some "Approved."))
        sampleState now).2.1.last_update_time = now ∧
    (risk_review samplePlanBuy (.parsed (some true) (some "Approved."))
        sampleState now).2.1.last_update_time ≠ "" ∧
    runFinalState { sampleEnv with now := now } (some sampleState) =
      some { cash_balance := 100, current_position := 99 / 365,
             active_plan := some sampleActivePlan,
             last_update_time := now } := by
  refine ⟨?_, ?_, rfl, ?_, ?_, scenario_run_eq now⟩
  · simp [risk_review, samplePlanBuy, sampleState]
  · simp [risk_review, samplePlanBuy, sampleState, sampleActivePlan]
  · simp [risk_review, samplePlanBuy, sampleState]
  · simp [risk_review, samplePlanBuy, sampleState]
    exact hnow

/-- Witness for the amended C7 at the concrete timestamp of the sample
environment. -/
theorem approval_scenario_amended_witness :
    ("2024-01-01T01:00:00" : String) ≠ "" ∧
    ((risk_review samplePlanBuy (.parsed (some true) (some "Approved."))
        sampleState "2024-01-01T01:00:00").2.1.current_position = 0 ∧
     (risk_review samplePlanBuy (.parsed (some true) (some "Approved."))
        sampleState "2024-01-01T01:00:00").2.1.active_plan
          = some sampleActivePlan ∧
     sampleActivePlan.status = .ACTIVE ∧
     (risk_review samplePlanBuy (.parsed (some true) (some "Approved."))
        sampleState "2024-01-01T01:00:00").2.1.last_update_time
          = "2024-01-01T01:00:00" ∧
     (risk_review samplePlanBuy (.parsed (some true) (some "Approved."))
        sampleState "2024-01-01T01:00:00").2.1.last_update_time ≠ "" ∧
     runFinalState { sampleEnv with now := "2024-01-01T01:00:00" }
        (some sampleState) =
       some { cash_balance := 100, current_position := 99 / 365,
              active_plan := some sampleActivePlan,
              last_update_time := "2024-01-01T01:00:00" }) :=
  ⟨by decide, approval_scenario_amended "2024-01-01T01:00:00" (by decide)⟩

/-- A crafted state with a negative held quantity, used to refute the
unrestricted C8. -/
def overdrawnPlan : TradingPlan :=
  { market_cycle := .bear_trend, action := .BUY, target_price := 200,
    stop_loss := 100, status := .ACTIVE, reasoning := "held short" }

/-- State with nonnegative cash but a negative position and an ACTIVE
BUY plan. -/
def overdrawnState : AgentState :=
  { cash_balance := 1, current_position := -1,
    active_plan := some overdrawnPlan }

/-- Counterexample to claim C8 as stated: from a state with
`cash_balance ≥ 0` (but a negative position), a stop-loss liquidation at
the positive price 50 drives the cash balance to -49 < 0. -/
theorem cash_goes_negative_cex :
    0 ≤ overdrawnState.cash_balance ∧ (0 : Rat) < 50 ∧
    (execute_or_monitor overdrawnState 50).cash_balance < 0 := by
  refine ⟨by norm_num [overdrawnState], by norm_num, ?_⟩
  have h : execute_or_monitor overdrawnState 50 =
      { overdrawnState with
          cash_balance := overdrawnState.cash_balance
            + overdrawnState.current_position * 50,
          current_position := 0,
          active_plan := some { overdrawnPlan with
            status := .CLOSED,
            reasoning := overdrawnPlan.reasoning ++ " [Stopped Out]" } } :=
    execute_stop_eq overdrawnState overdrawnPlan 50 rfl rfl rfl
      (by norm_num [overdrawnState]) (by norm_num [overdrawnPlan])
  rw [h]
  norm_num [overdrawnState]

/-- The execute/monitor step keeps the cash balance nonnegative when the
position is also nonnegative and the price is positive. -/
theorem execute_cash_nonneg (state : AgentState) (P : Rat)
    (hc : 0 ≤ state.cash_balance) (hp : 0 ≤ state.current_position)
    (hP : 0 < P) : 0 ≤ (execute_or_monitor state P).cash_balance := by
  cases ha : state.active_plan with
  | none =>
      have h : execute_or_monitor state P = state := by
        simp [execute_or_monitor, ha]
      rw [h]; exact hc
  | some plan =>
      by_cases hst : plan.status = .ACTIVE
      · cases hact : plan.action with
        | BUY =>
            by_cases hpos : state.current_position = 0
            · rw [execute_entry_eq state plan P ha hst hact hpos]
              show 0 ≤ state.cash_balance
                - state.cash_balance * (99 / 100) / P * P
              rw [div_mul_cancel₀ _ (ne_of_gt hP)]
              nlinarith [hc]
            · by_cases h5 : P ≤ plan.stop_loss
              · rw [execute_stop_eq state plan P ha hst hact hpos h5]
                exact add_nonneg hc (mul_nonneg hp hP.le)
              · by_cases h6 : P ≥ plan.target_price
                · rw [execute_target_eq state plan P ha hst hact hpos h5 h6]
                  exact add_nonneg hc (mul_nonneg hp hP.le)
                · rw [execute_noop_eq state plan P ha hst hact hpos h5 h6]
                  exact hc
        | SELL =>
            have h : execute_or_monitor state P = state := by
              simp [execute_or_monitor, ha, hst, hact]
            rw [h]; exact hc
        | HOLD =>
            have h : execute_or_monitor state P = state := by
              simp [execute_or_monitor, ha, hst, hact]
            rw [h]; exact hc
      · have h : execute_or_monitor state P = state := by
          apply execute_not_active
          intro q hq
          rw [ha] at hq
          injection hq with hq2
          rw [← hq2]
          exact hst
        rw [h]; exact hc

/-- Any successful invocation's final context state is the initial
state after one execute/monitor (fast path), or the post-review state,
or the post-review state after one execute/monitor. -/
theorem run_workflow_cases (env : Env) (state : AgentState) (r : StopResult)
    (fs : AgentState) (calls : List ExtCall)
    (h : run_workflow env (some state) = .ok (r, fs, calls)) :
    fs = execute_or_monitor state env.current_price ∨
    (∃ proposal summary calls2,
        formulate_plan env.advisorParsed env.snapshot
          = .ok (proposal, summary, calls2) ∧
        (fs = (risk_review proposal env.review state env.now).2.1 ∨
         fs = execute_or_monitor
                (risk_review proposal env.review state env.now).2.1
                env.current_price)) := by
  simp only [run_workflow, Option.getD] at h
  by_cases hactive : ∃ p, state.active_plan = some p ∧ p.status = .ACTIVE
  · obtain ⟨p, hp, hs⟩ := hactive
    have hana : analyze_market state env.snapshot = (.tradeSignal, []) := by
      simp [analyze_market, hp, hs]
    rw [hana] at h
    simp only [] at h
    injection h with h2
    left
    exact (congrArg (fun t => t.2.1) h2).symm
  · have hana : analyze_market state env.snapshot
        = (.marketAnalysis env.snapshot, [.getMarketSnapshot]) := by
      cases hap : state.active_plan with
      | none => simp [analyze_market, hap]
      | some p =>
          have hns : ¬ p.status = .ACTIVE := fun hs => hactive ⟨p, hap, hs⟩
          simp [analyze_market, hap, hns]
    rw [hana] at h
    simp only [] at h
    cases hfp : formulate_plan env.advisorParsed env.snapshot with
    | error e =>
        rw [hfp] at h
        exact absurd h (by simp)
    | ok fp =>
        obtain ⟨proposal, summary2, calls2⟩ := fp
        rw [hfp] at h
        simp only [] at h
        right
        refine ⟨proposal, summary2, calls2, rfl, ?_⟩
        cases hrr : (risk_review proposal env.review state env.now).1 with
        | stop m =>
            rw [hrr] at h
            simp only [] at h
            injection h with h2
            exact Or.inl (congrArg (fun t => t.2.1) h2).symm
        | tradeSignal =>
            rw [hrr] at h
            simp only [] at h
            injection h with h2
            exact Or.inr (congrArg (fun t => t.2.1) h2).symm

/-- Claim C8 as amended: the invariant holds once the position is also
required nonnegative — a BUY entry leaves a hundredth of the prior cash,
liquidating a nonnegative position at a positive price only credits
cash, and every other path leaves cash untouched, both for one
execute/monitor step and across a whole invocation. -/
theorem cash_nonneg_invariant (env : Env) (state : AgentState)
    (hc : 0 ≤ state.cash_balance) (hp : 0 ≤ state.current_position)
    (hP : 0 < env.current_price) :
    0 ≤ (execute_or_monitor state env.current_price).cash_balance ∧
    ∀ r fs calls, run_workflow env (some state) = .ok (r, fs, calls) →
      0 ≤ fs.cash_balance := by
  refine ⟨execute_cash_nonneg state env.current_price hc hp hP, ?_⟩
  intro r fs calls h
  rcases run_workflow_cases env state r fs calls h with
    h1 | ⟨proposal, summary, calls2, hfp, h2 | h2⟩
  · rw [h1]
    exact execute_cash_nonneg state env.current_price hc hp hP
  · rw [h2, risk_review_cash]
    exact hc
  · rw [h2]
    apply execute_cash_nonneg
    · rw [risk_review_cash]; exact hc
    · rw [risk_review_position]; exact hp
    · exact hP

/-- Witness for the amended C8: the sample fresh state run through the
sample environment keeps its cash nonnegative. -/
theorem cash_nonneg_invariant_witness :
    0 ≤ sampleState.cash_balance ∧ 0 ≤ sampleState.current_position ∧
    0 < sampleEnv.current_price ∧
    (0 ≤ (execute_or_monitor sampleState
            sampleEnv.current_price).cash_balance ∧
     ∀ r fs calls,
       run_workflow sampleEnv (some sampleState) = .ok (r, fs, calls) →
         0 ≤ fs.cash_balance) :=
  ⟨by norm_num [sampleState], by norm_num [sampleState],
   by norm_num [sampleEnv],
   cash_nonneg_invariant sampleEnv sampleState (by norm_num [sampleState])
     (by norm_num [sampleState]) (by norm_num [sampleEnv])⟩

/-- The state `risk_review` hands on is either the input state or the
input state with the proposal activated. -/
theorem risk_review_state_eq (proposal : TradingPlan)
    (review : ReviewerParse) (state : AgentState) (now : String) :
    (risk_review proposal review state now).2.1 = state ∨
    (risk_review proposal review state now).2.1 =
      { state with
          active_plan := some { proposal with status := .ACTIVE },
          last_update_time := now } := by
  by_cases hh : proposal.action = .HOLD
  · left; simp [risk_review, hh]
  · cases review with
    | parsed approved reasoning =>
        by_cases ha : approved = some true
        · right; simp [risk_review, hh, ha]
        · left; simp [risk_review, hh, ha]
    | parseError e => left; simp [risk_review, hh]

/-- `risk_review` keeps the stored plan's status in
{PENDING, ACTIVE, CLOSED} (it only ever writes ACTIVE). -/
theorem risk_review_plan_ok (proposal : TradingPlan)
    (review : ReviewerParse) (state : AgentState) (now : String)
    (hstate : ∀ p, state.active_plan = some p → okStatus p.status) :
    ∀ p, (risk_review proposal review state now).2.1.active_plan = some p →
      okStatus p.status := by
  intro p hp
  rcases risk_review_state_eq proposal review state now with heq | heq
  · rw [heq] at hp
    exact hstate p hp
  · rw [heq] at hp
    have hp2 : some ({ proposal with status := PlanStatus.ACTIVE } :
        TradingPlan) = some p := hp
    injection hp2 with h3
    rw [← h3]
    exact Or.inr (Or.inl rfl)

/-- `execute_or_monitor` keeps the stored plan's status in
{PENDING, ACTIVE, CLOSED} (it only ever writes CLOSED). -/
theorem execute_plan_ok (state : AgentState) (P : Rat)
    (hstate : ∀ p, state.active_plan = some p → okStatus p.status) :
    ∀ p, (execute_or_monitor state P).active_plan = some p →
      okStatus p.status := by
  intro p hp
  cases ha : state.active_plan with
  | none =>
      have h : execute_or_monitor state P = state := by
        simp [execute_or_monitor, ha]
      rw [h] at hp
      exact hstate p hp
  | some plan =>
      by_cases hst : plan.status = .ACTIVE
      · cases hact : plan.action with
        | BUY =>
            by_cases hpos : state.current_position = 0
            · rw [execute_entry_eq state plan P ha hst hact hpos] at hp
              have hp2 : state.active_plan = some p := hp
              exact hstate p hp2
            · by_cases h5 : P ≤ plan.stop_loss
              · rw [execute_stop_eq state plan P ha hst hact hpos h5] at hp
                have hp2 : some ({ plan with
                    status := PlanStatus.CLOSED,
                    reasoning := plan.reasoning ++ " [Stopped Out]" } :
                    TradingPlan) = some p := hp
                injection hp2 with h3
                rw [← h3]
                exact Or.inr (Or.inr rfl)
              · by_cases h6 : P ≥ plan.target_price
                · rw [execute_target_eq state plan P ha hst hact hpos h5 h6]
                    at hp
                  have hp2 : some ({ plan with
                      status := PlanStatus.CLOSED,
                      reasoning := plan.reasoning ++ " [Target Hit]" } :
                      TradingPlan) = some p := hp
                  injection hp2 with h3
                  rw [← h3]
                  exact Or.inr (Or.inr rfl)
                · rw [execute_noop_eq state plan P ha hst hact hpos h5 h6]
                    at hp
                  exact hstate p hp
        | SELL =>
            have h : execute_or_monitor state P = state := by
              simp [execute_or_monitor, ha, hst, hact]
            rw [h] at hp
            exact hstate p hp
        | HOLD =>
            have h : execute_or_monitor state P = state := by
              simp [execute_or_monitor, ha, hst, hact]
            rw [h] at hp
            exact hstate p hp
      · have h : execute_or_monitor state P = state := by
          apply execute_not_active
          intro q hq
          rw [ha] at hq
          injection hq with hq2
          rw [← hq2]
          exact hst
        rw [h] at hp
        exact hstate p hp

/-- Claim C10: starting from a PENDING proposal and a state whose stored
plan (if any) has a status among {PENDING, ACTIVE, CLOSED}, the
formulate, risk-review and execute/monitor steps — and any whole
invocation — never produce a plan whose status is FILLED. -/
theorem status_never_filled (proposal : TradingPlan) (review : ReviewerParse)
    (state : AgentState) (now : String) (P : Rat) (env : Env)
    (hprop : proposal.status = .PENDING)
    (hstate : ∀ p, state.active_plan = some p → okStatus p.status) :
    (∀ pl rest, formulate_plan (.ok proposal) env.snapshot = .ok (pl, rest) →
        okStatus pl.status) ∧
    (∀ p, (risk_review proposal review state now).2.1.active_plan = some p →
        okStatus p.status) ∧
    (∀ p, (execute_or_monitor state P).active_plan = some p →
        okStatus p.status) ∧
    (∀ r fs calls, run_workflow env (some state) = .ok (r, fs, calls) →
        ∀ p, fs.active_plan = some p → okStatus p.status) := by
  refine ⟨?_, risk_review_plan_ok proposal review state now hstate,
    execute_plan_ok state P hstate, ?_⟩
  · intro pl rest hfp
    have h0 : formulate_plan (.ok proposal) env.snapshot
        = .ok (proposal, env.snapshot, [ExtCall.advisorChat]) := rfl
    rw [h0] at hfp
    injection hfp with h1
    have h2 : proposal = pl := congrArg Prod.fst h1
    rw [← h2]
    exact Or.inl hprop
  · intro r fs calls h
    rcases run_workflow_cases env state r fs calls h with
      h1 | ⟨prop2, summary, calls2, hfp, h2 | h2⟩
    · rw [h1]
      exact execute_plan_ok state env.current_price hstate
    · rw [h2]
      exact risk_review_plan_ok prop2 env.review state env.now hstate
    · rw [h2]
      exact execute_plan_ok _ env.current_price
        (risk_review_plan_ok prop2 env.review state env.now hstate)

/-- Witness for C10 at the sample scenario. -/
theorem status_never_filled_witness :
    samplePlanBuy.status = .PENDING ∧
    (∀ p, sampleState.active_plan = some p → okStatus p.status) ∧
    ((∀ pl rest,
        formulate_plan (.ok samplePlanBuy) sampleEnv.snapshot
          = .ok (pl, rest) → okStatus pl.status) ∧
     (∀ p, (risk_review samplePlanBuy (.parsed (some true) (some "Approved."))
        sampleState "2024-01-01T01:00:00").2.1.active_plan = some p →
          okStatus p.status) ∧
     (∀ p, (execute_or_monitor sampleState 36500).active_plan = some p →
          okStatus p.status) ∧
     (∀ r fs calls,
        run_workflow sampleEnv (some sampleState) = .ok (r, fs, calls) →
          ∀ p, fs.active_plan = some p → okStatus p.status)) :=
  ⟨rfl, fun p hp => by simp [sampleState] at hp,
   status_never_filled samplePlanBuy (.parsed (some true) (some "Approved."))
     sampleState "2024-01-01T01:00:00" 36500 sampleEnv rfl
     (fun p hp => by simp [sampleState] at hp)⟩

end Trading
